import Mathlib

/-!
Verification of the SiteGuard API v2 heuristic scanner
(src/siteguard_api_v2/app.py) against its natural-language specification.

The Python source is shallowly embedded below.  Pure dictionaries become
Lean functions or lists, the feature dictionary becomes a fixed-shape
record, and the imperative accumulation in score_features (a sequence of
fifteen conditionals sharing one add closure, lines 118-142 of app.py)
is transcribed as an ordered rule table folded left to right: the fold in
declaration order executes exactly the source's statement sequence.
-/

namespace SiteGuard

/-- The feature dictionary built by collect_features (app.py lines 51-57),
as a fixed-shape record.  Python booleans become Bool, integer counters
become Nat, and execDownloads is the list of offending URLs. -/
structure Features where
  mixedContent : Bool
  metaRefresh : Bool
  inlineHandlers : Nat
  suspiciousInlineJS : Nat
  dataURIScripts : Nat
  shortenerLinks : Nat
  ipLinks : Nat
  suspiciousTLDs : Nat
  execDownloads : List String
  formsToHTTP : Nat
  hiddenIframes : Nat
  thirdPartyScripts : Nat
  onBeforeUnload : Bool
  fingerprintingAPIs : Nat
  base64InLinks : Nat
  deriving Repr, DecidableEq

/-- The static WEIGHTS dictionary (app.py lines 25-31), embedded as a
total function on heuristic names (every key used by score_features is
present in the source dictionary). -/
def WEIGHTS (k : String) : Nat :=
  if k = "mixedContent" then 25
  else if k = "metaRefresh" then 10
  else if k = "manyInlineHandlers" then 10
  else if k = "suspiciousInlineJS" then 20
  else if k = "dataURIScripts" then 10
  else if k = "shortenerLinks" then 15
  else if k = "ipLinks" then 10
  else if k = "suspiciousTLDs" then 10
  else if k = "execDownloads" then 20
  else if k = "formsToHTTP" then 20
  else if k = "hiddenIframes" then 10
  else if k = "thirdPartyScripts" then 10
  else if k = "onBeforeUnload" then 10
  else if k = "fingerprintingAPIs" then 10
  else if k = "base64InLinks" then 10
  else 0

/-- The finding string produced by the add closure of score_features
(app.py line 124): the message followed by its weight contribution. -/
def finding (msg : String) (w : Nat) : String :=
  msg ++ " (+" ++ toString w ++ ")"

/-- One execution of the add closure (app.py lines 121-124) on the
running state (score so far, issues so far). -/
def add (st : Nat × List String) (msg : String) (w : Nat) : Nat × List String :=
  (st.1 + w, st.2 ++ [finding msg w])

/-- The fifteen conditionals of score_features (app.py lines 125-139),
in source declaration order: for each, the Python truthiness test of the
guard, the message, and the weight looked up in WEIGHTS. -/
def ruleList (f : Features) : List (Bool × String × Nat) :=
  [ (f.mixedContent,                       "Mixed content on HTTPS",                        WEIGHTS "mixedContent"),
    (f.metaRefresh,                        "Meta refresh redirect",                         WEIGHTS "metaRefresh"),
    (decide (20 < f.inlineHandlers),       "Many inline event handlers",                    WEIGHTS "manyInlineHandlers"),
    (decide (0 < f.suspiciousInlineJS),    "Suspicious inline JS (eval/new Function/atob)", WEIGHTS "suspiciousInlineJS"),
    (decide (0 < f.dataURIScripts),        "Data-URI scripts",                              WEIGHTS "dataURIScripts"),
    (decide (3 < f.shortenerLinks),        "Multiple shortener links",                      WEIGHTS "shortenerLinks"),
    (decide (0 < f.ipLinks),               "Links to raw IPs",                              WEIGHTS "ipLinks"),
    (decide (0 < f.suspiciousTLDs),        "Suspicious TLDs used",                          WEIGHTS "suspiciousTLDs"),
    (decide (0 < f.execDownloads.length),  "Executable/archived downloads present",         WEIGHTS "execDownloads"),
    (decide (0 < f.formsToHTTP),           "Forms submit to HTTP",                          WEIGHTS "formsToHTTP"),
    (decide (0 < f.hiddenIframes),         "Hidden/zero-size iframes",                      WEIGHTS "hiddenIframes"),
    (decide (10 < f.thirdPartyScripts),    "High number of third-party scripts",            WEIGHTS "thirdPartyScripts"),
    (f.onBeforeUnload,                     "onbeforeunload trap",                           WEIGHTS "onBeforeUnload"),
    (decide (0 < f.fingerprintingAPIs),    "Fingerprinting APIs present",                   WEIGHTS "fingerprintingAPIs"),
    (decide (0 < f.base64InLinks),         "Base64 found in links",                         WEIGHTS "base64InLinks") ]

/-- Executing a list of rules in order on the running (score, issues)
state: each triggered rule runs the add closure, untriggered rules leave
the state alone.  Folding ruleList from the initial state (0, []) is the
statement sequence of app.py lines 119-139. -/
def applyRules : List (Bool × String × Nat) → Nat × List String → Nat × List String
  | [], st => st
  | r :: rs, st => applyRules rs (if r.1 then add st r.2.1 r.2.2 else st)

/-- score_features (app.py lines 118-142): run the fifteen conditionals,
clamp the total at 100, derive the level from the fixed thresholds, and
return (score, level, issues). -/
def score_features (f : Features) : Nat × String × List String :=
  let st := applyRules (ruleList f) (0, [])
  let s := min st.1 100
  let level := if 70 ≤ s then "High" else if 40 ≤ s then "Medium" else "Low"
  (s, level, st.2)

/-- The weights of the triggered rules, summed without clamping. -/
def sumTriggered (rs : List (Bool × String × Nat)) : Nat :=
  ((rs.filter (fun r => r.1)).map (fun r => r.2.2)).sum

/-- The findings of the triggered rules, in rule order. -/
def triggeredFindings (rs : List (Bool × String × Nat)) : List String :=
  (rs.filter (fun r => r.1)).map (fun r => finding r.2.1 r.2.2)

/-- The boolean trigger vector of a feature vector: which of the fifteen
rules fire, in declaration order. -/
def trigVec (f : Features) : List Bool := (ruleList f).map (fun r => r.1)

/-- The initial all-zero feature dictionary (app.py lines 51-57). -/
def emptyFeatures : Features :=
  { mixedContent := false, metaRefresh := false, inlineHandlers := 0,
    suspiciousInlineJS := 0, dataURIScripts := 0, shortenerLinks := 0,
    ipLinks := 0, suspiciousTLDs := 0, execDownloads := [],
    formsToHTTP := 0, hiddenIframes := 0, thirdPartyScripts := 0,
    onBeforeUnload := false, fingerprintingAPIs := 0, base64InLinks := 0 }

/-- The constant (message, weight) data of the fifteen rules, in
declaration order (the components of ruleList that do not depend on the
feature vector). -/
def ruleData : List (String × Nat) := (ruleList emptyFeatures).map (fun r => r.2)

/-- A node of the parsed HTML document built by BeautifulSoup with the
html.parser builder: either a text node or an element with its lowercased
tag name, its attribute list (names lowercased by the parser, first
occurrence of a duplicate kept), and its children. -/
inductive Node where
  | text : String → Node
  | elem : String → List (String × String) → List Node → Node

/-- The tag name of a node (elements only; text nodes have none). -/
def Node.tag : Node → String
  | .text _ => ""
  | .elem t _ _ => t

/-- The attribute list of a node. -/
def Node.attrs : Node → List (String × String)
  | .text _ => []
  | .elem _ a _ => a

/-- Model of bs4 Tag.get(name): the value of the attribute, None when
absent. -/
def getAttr (el : Node) (name : String) : Option String :=
  (el.attrs.find? (fun p => p.1 == name)).map (fun p => p.2)

/-- Model of bs4 Tag.has_attr(name). -/
def hasAttr (el : Node) (name : String) : Bool :=
  (getAttr el name).isSome

/-- Model of bs4 Tag.get(name, dflt). -/
def getAttrD (el : Node) (name dflt : String) : String :=
  (getAttr el name).getD dflt

/-- Python truthiness of an optional string: None and the empty string
are falsy. -/
def isTruthy : Option String → Bool
  | some s => s != ""
  | none => false

/-- The Python expression a or b on two optional strings: a when a is
truthy, otherwise b. -/
def pyOr (a b : Option String) : Option String :=
  match a with
  | some s => if s = "" then b else some s
  | none => b

mutual

/-- All elements of a node in document (pre-order) order, the node
itself included when it is an element: the traversal of
soup.find_all(True). -/
def nodeElems : Node → List Node
  | .text _ => []
  | .elem t a c => Node.elem t a c :: forestElems c

/-- All elements of a forest in document order. -/
def forestElems : List Node → List Node
  | [] => []
  | n :: ns => nodeElems n ++ forestElems ns

end

mutual

/-- Model of bs4 get_text(): the concatenation of all descendant text. -/
def nodeText : Node → String
  | .text s => s
  | .elem _ _ c => forestText c

/-- Concatenated text of a forest. -/
def forestText : List Node → String
  | [] => ""
  | n :: ns => nodeText n ++ forestText ns

end

/-- An ASCII whitespace character (model of Python's whitespace class;
the rare non-ASCII whitespace characters are not modelled). -/
def isSpaceChar (c : Char) : Bool :=
  c == ' ' || c == '\t' || c == '\n' || c == '\r' ||
    c == '\x0b' || c == '\x0c'

/-- Whether the pattern list is a prefix of the character list. -/
def startsWithList : List Char → List Char → Bool
  | [], _ => true
  | _ :: _, [] => false
  | p :: ps, c :: cs => p == c && startsWithList ps cs

/-- Whether the pattern list occurs anywhere in the character list. -/
def containsList : List Char → List Char → Bool
  | [], pat => pat.isEmpty
  | c :: rest, pat => startsWithList pat (c :: rest) || containsList rest pat

/-- Model of Python str.lower restricted to ASCII. -/
def lowerStr (s : String) : String :=
  String.mk (s.data.map Char.toLower)

/-- Model of Python str.strip(): whitespace removed from both ends. -/
def trimStr (s : String) : String :=
  String.mk (((s.data.dropWhile isSpaceChar).reverse.dropWhile isSpaceChar).reverse)

/-- Model of Python str.startswith. -/
def startsWithStr (pre s : String) : Bool :=
  startsWithList pre.data s.data

/-- Model of Python str.endswith. -/
def endsWithStr (suf s : String) : Bool :=
  startsWithList suf.data.reverse s.data.reverse

/-- Split a character list at every occurrence of the separator. -/
def splitOnChar (sep : Char) : List Char → List (List Char)
  | [] => [[]]
  | c :: rest =>
      let r := splitOnChar sep rest
      if c == sep then [] :: r
      else
        match r with
        | [] => [[c]]
        | h :: t => (c :: h) :: t

/-- Whether pat occurs as a substring of s (pat nonempty): the Python
expression pat in s. -/
def containsSub (s pat : String) : Bool :=
  containsList s.data pat.data

/-- A character allowed in a URL scheme after the first (RFC 3986 /
urllib.parse). -/
def isSchemeChar (c : Char) : Bool :=
  c.isAlphanum || c == '+' || c == '-' || c == '.'

/-- Model of the scheme split of urllib.parse.urlparse: when the string
starts with a valid scheme followed by a colon, the lowercased scheme
and the remainder after the colon. -/
def schemeSplit (u : String) : Option (String × String) :=
  let cs := u.toList
  let pre := cs.takeWhile (fun c => c != ':')
  if pre.length < cs.length && !pre.isEmpty &&
      (pre.headD 'a').isAlpha && pre.all isSchemeChar then
    some (String.mk (pre.map Char.toLower), String.mk (cs.drop (pre.length + 1)))
  else none

/-- The scheme field of urlparse (empty string when there is none). -/
def schemeOf (u : String) : String :=
  match schemeSplit u with
  | some (s, _) => s
  | none => ""

/-- The part of the URL after the scheme colon (the whole URL when there
is no scheme). -/
def restOf (u : String) : String :=
  match schemeSplit u with
  | some (_, r) => r
  | none => u

/-- The netloc field of urlparse: present only when the post-scheme part
starts with a double slash, and running to the first slash, question
mark or hash. -/
def netlocOf (u : String) : String :=
  let r := (restOf u).data
  if startsWithList "//".data r then
    String.mk ((r.drop 2).takeWhile (fun c => c != '/' && c != '?' && c != '#'))
  else ""

/-- The hostname field of urlparse: the netloc with any user-info part
(through the last at sign) removed, truncated at the port colon, and
lowercased; the empty string stands for Python's None. -/
def hostnameOf (u : String) : String :=
  let nl := (netlocOf u).data
  let hostinfo := (nl.reverse.takeWhile (fun c => c != '@')).reverse
  String.mk ((hostinfo.takeWhile (fun c => c != ':')).map Char.toLower)

/-- The scheme://netloc origin string built by collect_features
(app.py line 49). -/
def originOf (u : String) : String :=
  schemeOf u ++ "://" ++ netlocOf u

/-- The path-query-fragment part following the netloc (or following the
scheme when there is no netloc). -/
def pathAndAfter (u : String) : String :=
  let r := (restOf u).data
  if startsWithList "//".data r then
    String.mk ((r.drop 2).dropWhile (fun c => c != '/' && c != '?' && c != '#'))
  else String.mk r

/-- Model of urllib.parse.urljoin, exact for the reference shapes that
matter here: empty references, references carrying their own scheme and
netloc, network-path (//), absolute-path (/), fragment (#), query (?)
and simple relative references.  Dot-segment normalization and
same-scheme references without a netloc are not modelled. -/
def urljoin (base value : String) : String :=
  if value = "" then base
  else if (schemeSplit value).isSome then value
  else if startsWithStr "//" value then
    (if schemeOf base = "" then value else schemeOf base ++ ":" ++ value)
  else
    let keep := originOf base
    if startsWithStr "/" value then keep ++ value
    else if startsWithStr "#" value then
      String.mk (base.data.takeWhile (fun c => c != '#')) ++ value
    else if startsWithStr "?" value then
      String.mk (base.data.takeWhile (fun c => c != '?' && c != '#')) ++ value
    else
      let p := (pathAndAfter base).data.takeWhile (fun c => c != '?' && c != '#')
      let dir := String.mk (p.reverse.dropWhile (fun c => c != '/')).reverse
      keep ++ (if dir = "" then "/" else dir) ++ value

/-- normalize_url (app.py lines 41-45): urljoin wrapped so that a
resolution failure yields None; the modelled urljoin is total, so the
failure branch is never taken. -/
def normalize_url (base value : String) : Option String :=
  some (urljoin base value)

/-- The SHORTENERS set (app.py line 33). -/
def SHORTENERS : List String :=
  ["bit.ly", "t.co", "goo.gl", "tinyurl.com", "ow.ly", "buff.ly",
   "cutt.ly", "is.gd", "adf.ly"]

/-- The DL_EXTS tuple (app.py line 34). -/
def DL_EXTS : List String :=
  [".exe", ".apk", ".msi", ".bat", ".cmd", ".scr", ".zip", ".rar",
   ".js", ".jar", ".7z"]

/-- The INLINE_EVENTS set (app.py lines 35-36). -/
def INLINE_EVENTS : List String :=
  ["onclick", "onload", "onerror", "onmouseover", "onfocus",
   "onmouseleave", "onmouseenter", "onkeydown", "onkeyup", "onbeforeunload"]

/-- The SUSP_TLDS set (app.py line 37). -/
def SUSP_TLDS : List String :=
  [".zip", ".click", ".country", ".gq", ".tk", ".ml", ".ga", ".cf",
   ".top", ".work", ".xyz"]

/-- Model of the anchored dotted-quad pattern of app.py line 87: four
runs of one to three digits separated by dots, spanning the whole
host. -/
def isDottedQuad (host : String) : Bool :=
  match splitOnChar '.' host.data with
  | [a, b, c, d] =>
      [a, b, c, d].all (fun p =>
        1 ≤ p.length && p.length ≤ 3 && p.all Char.isDigit)
  | _ => false

/-- Model of the case-insensitive suspicious-call pattern susp_re of
app.py line 74: any of the four literal call fragments occurs. -/
def susp_search (txt : String) : Bool :=
  let l := lowerStr txt
  containsSub l "eval(" || containsSub l "new function(" ||
    containsSub l "document.write(" || containsSub l "atob("

/-- Whether a data-colon JavaScript reference starts at the head of the
(already lowercased) character list: data colon, optional whitespace,
then text/javascript. -/
def dataUriAt (l : List Char) : Bool :=
  startsWithList "data:".toList l &&
    startsWithList "text/javascript".toList ((l.drop 5).dropWhile isSpaceChar)

/-- Search for the data-URI pattern anywhere in the list. -/
def dataUriSearch : List Char → Bool
  | [] => false
  | c :: rest => dataUriAt (c :: rest) || dataUriSearch rest

/-- Model of the case-insensitive regex search of app.py line 79 for a
data-colon text/javascript reference with optional whitespace after the
colon. -/
def dataUriRegex (txt : String) : Bool :=
  dataUriSearch (lowerStr txt).data

/-- Model of the case-sensitive fingerprinting-API regex search of
app.py line 113. -/
def fingerprint_search (html : String) : Bool :=
  containsSub html "CanvasRenderingContext2D" ||
    containsSub html "WebGLRenderingContext" ||
    containsSub html "RTCPeerConnection" ||
    containsSub html "deviceMemory" ||
    containsSub html "hardwareConcurrency"

/-- The value inspected by the mixed-content loop for one element
(app.py line 61): the src attribute if truthy, else the href
attribute. -/
def mixedVal (el : Node) : Option String :=
  pyOr (getAttr el "src") (getAttr el "href")

/-- The mixed-content test for one element (app.py line 62): the chosen
value is truthy and, stripped and lowercased, starts with http://. -/
def mixedTrigger (el : Node) : Bool :=
  match mixedVal el with
  | some v => (v != "") && startsWithStr "http://" (lowerStr (trimStr v))
  | none => false

/-- One iteration of the anchor loop of collect_features (app.py lines
81-91): resolve the href, skip falsy resolutions, then apply each of the
five link checks independently, incrementing its counter (or, for
executable downloads, appending the resolved URL). -/
def anchorStep (page_url : String) (f : Features) (a : Node) : Features :=
  match normalize_url page_url (getAttrD a "href" "") with
  | none => f
  | some href =>
    if href = "" then f
    else
      let host := hostnameOf href
      let f := if SHORTENERS.contains host then
        { f with shortenerLinks := f.shortenerLinks + 1 } else f
      let f := if isDottedQuad host then
        { f with ipLinks := f.ipLinks + 1 } else f
      let f := if SUSP_TLDS.any (fun t => endsWithStr t host) then
        { f with suspiciousTLDs := f.suspiciousTLDs + 1 } else f
      let f := if containsSub (lowerStr href) "base64," then
        { f with base64InLinks := f.base64InLinks + 1 } else f
      let f := if hasAttr a "download" || DL_EXTS.any (fun x => endsWithStr x (lowerStr href)) then
        { f with execDownloads := f.execDownloads ++ [href] } else f
      f

/-- collect_features (app.py lines 47-116) over the parsed document doc
of the raw markup html.  The structural rules walk the element list; the
onbeforeunload and fingerprinting checks are textual searches over the
raw markup, as in the source.  The metaRefresh selector of line 66
matches the http-equiv value exactly against the two spellings listed
(soupsieve matches attribute values case-sensitively apart from the type
attribute, which is why the source lists refresh and Refresh). -/
def collect_features (page_url html : String) (doc : List Node) : Features :=
  let elems := forestElems doc
  let origin := originOf page_url
  let https := startsWithStr "https:" (lowerStr page_url)
  let f := emptyFeatures
  let f := { f with mixedContent := https &&
      ((elems.filter (fun el => hasAttr el "src" || hasAttr el "href")).any mixedTrigger) }
  let f := { f with metaRefresh := elems.any (fun el =>
      el.tag == "meta" && (getAttr el "http-equiv" == some "refresh" ||
        getAttr el "http-equiv" == some "Refresh")) }
  let f := { f with inlineHandlers :=
      (elems.map (fun el => (INLINE_EVENTS.filter (fun a => hasAttr el a)).length)).sum }
  let inlineScripts := elems.filter (fun el =>
      el.tag == "script" && !(isTruthy (getAttr el "src")))
  let f := { f with
      suspiciousInlineJS := inlineScripts.countP (fun s => susp_search (nodeText s)),
      dataURIScripts := inlineScripts.countP (fun s => dataUriRegex (nodeText s)) }
  let anchors := elems.filter (fun el => el.tag == "a" && hasAttr el "href")
  let f := anchors.foldl (anchorStep page_url) f
  let f := { f with formsToHTTP :=
      (elems.filter (fun (el : Node) => el.tag == "form" && hasAttr el "action")).countP (fun fm =>
        match normalize_url page_url (getAttrD fm "action" "") with
        | none => false
        | some act => (act != "") && startsWithStr "http://" (lowerStr act)) }
  let f := { f with hiddenIframes :=
      (elems.filter (fun (el : Node) => el.tag == "iframe")).countP (fun i =>
        let style := lowerStr (getAttrD i "style" "")
        containsSub style "display:none" || containsSub style "visibility:hidden" ||
          getAttr i "width" == some "0" || getAttr i "height" == some "0") }
  let f := { f with thirdPartyScripts :=
      (elems.filter (fun (el : Node) => el.tag == "script" && hasAttr el "src")).countP (fun s =>
        match normalize_url page_url (getAttrD s "src" "") with
        | none => false
        | some u => (schemeOf u ++ "://" ++ netlocOf u) != origin) }
  let f := { f with onBeforeUnload := containsSub (lowerStr html) "onbeforeunload" }
  let f := { f with fingerprintingAPIs := if fingerprint_search html then 1 else 0 }
  f

/-- The data of one anchor the loop of app.py lines 81-91 looks at:
whether it carries a download attribute, and its href resolved against
the page URL. -/
def anchorRes (page_url : String) (a : Node) : Bool × String :=
  (hasAttr a "download", urljoin page_url (getAttrD a "href" ""))

/-- The resolved anchors a list of anchor elements contributes: each
anchor's resolution, with falsy (empty) resolutions skipped. -/
def resolvedList (page_url : String) (as : List Node) : List (Bool × String) :=
  (as.map (anchorRes page_url)).filter (fun p => p.2 != "")

/-- The resolved anchors of a whole document: the anchor elements with
an href attribute, in document order, resolved and filtered as the loop
does. -/
def resolvedAnchors (page_url : String) (doc : List Node) : List (Bool × String) :=
  resolvedList page_url
    ((forestElems doc).filter (fun (el : Node) => el.tag == "a" && hasAttr el "href"))

/-- The shortener check applied to one resolved href (app.py line 86). -/
def isShortenerHref (h : String) : Bool :=
  SHORTENERS.contains (hostnameOf h)

/-- The raw-IP check applied to one resolved href (app.py line 87). -/
def isIpHref (h : String) : Bool :=
  isDottedQuad (hostnameOf h)

/-- The suspicious-TLD check applied to one resolved href (app.py
line 88). -/
def isSuspTldHref (h : String) : Bool :=
  SUSP_TLDS.any (fun t => endsWithStr t (hostnameOf h))

/-- The base64-marker check applied to one resolved href (app.py
line 89). -/
def isB64Href (h : String) : Bool :=
  containsSub (lowerStr h) "base64,"

/-- The executable-download check applied to one resolved anchor (app.py
line 90): a download attribute, or an href ending in a download
extension. -/
def isExecAnchor (p : Bool × String) : Bool :=
  p.1 || DL_EXTS.any (fun x => endsWithStr x (lowerStr p.2))

/-- A lexical token of the permissive tag-soup scan: text, a start tag
with attributes and a self-closing flag, or an end tag. -/
inductive Tok where
  | textTok : String → Tok
  | startTag : String → List (String × String) → Bool → Tok
  | endTag : String → Tok

/-- Lowercase a character list (tag and attribute names are lowercased
by the parser). -/
def lowerChars (l : List Char) : List Char := l.map Char.toLower

/-- Model of the attribute scan of html.parser inside a start tag:
skip whitespace, read name (lowercased) and optional quoted or unquoted
value, stop at the closing angle bracket, flagging a slash-bracket end
as self-closing.  Returns the attributes, the self-closing flag, and the
rest of the input after the closing bracket. -/
def parseAttrs (fuel : Nat) (cs : List Char) (acc : List (String × String)) :
    List (String × String) × Bool × List Char :=
  match fuel with
  | 0 => (acc.reverse, false, cs)
  | fuel + 1 =>
    let cs := cs.dropWhile isSpaceChar
    match cs with
    | [] => (acc.reverse, false, [])
    | '>' :: rest => (acc.reverse, false, rest)
    | '/' :: rest =>
        (match rest.dropWhile isSpaceChar with
         | '>' :: rest2 => (acc.reverse, true, rest2)
         | _ => parseAttrs fuel rest acc)
    | c :: rest =>
        let name := (c :: rest).takeWhile (fun x =>
          !(isSpaceChar x || x == '/' || x == '=' || x == '>'))
        let after := ((c :: rest).drop name.length).dropWhile isSpaceChar
        match after with
        | '=' :: r1 =>
            let r2 := r1.dropWhile isSpaceChar
            (match r2 with
             | '"' :: rq =>
                 let v := rq.takeWhile (fun x => x != '"')
                 parseAttrs fuel (rq.drop (v.length + 1))
                   ((String.mk (lowerChars name), String.mk v) :: acc)
             | '\'' :: rq =>
                 let v := rq.takeWhile (fun x => x != '\'')
                 parseAttrs fuel (rq.drop (v.length + 1))
                   ((String.mk (lowerChars name), String.mk v) :: acc)
             | _ =>
                 let v := r2.takeWhile (fun x => !(isSpaceChar x || x == '>'))
                 parseAttrs fuel (r2.drop v.length)
                   ((String.mk (lowerChars name), String.mk v) :: acc))
        | _ => parseAttrs fuel after ((String.mk (lowerChars name), "") :: acc)

/-- Model of the html.parser token scan: complete start and end tags
become tokens, declarations and comments are skipped, anything else —
including a truncated tag at end of input — degrades to character data,
as the permissive parser never fails. -/
def tokenize (fuel : Nat) (cs : List Char) : List Tok :=
  match fuel with
  | 0 => []
  | fuel + 1 =>
    match cs with
    | [] => []
    | '<' :: rest =>
        match rest with
        | [] => [Tok.textTok "<"]
        | '/' :: r1 =>
            if (r1.headD ' ').isAlpha then
              let name := r1.takeWhile (fun x => !(isSpaceChar x || x == '>'))
              let after := (r1.drop name.length).dropWhile (fun x => x != '>')
              match after with
              | '>' :: r2 => Tok.endTag (String.mk (lowerChars name)) :: tokenize fuel r2
              | _ => Tok.textTok "<" :: tokenize fuel rest
            else
              let after := r1.dropWhile (fun x => x != '>')
              match after with
              | '>' :: r2 => tokenize fuel r2
              | _ => Tok.textTok "<" :: tokenize fuel rest
        | c :: _ =>
            if c.isAlpha then
              let name := rest.takeWhile (fun x =>
                !(isSpaceChar x || x == '/' || x == '>'))
              if (rest.drop name.length).any (fun x => x == '>') then
                let r := parseAttrs (rest.length + 1) (rest.drop name.length) []
                Tok.startTag (String.mk (lowerChars name)) r.1 r.2.1 :: tokenize fuel r.2.2
              else
                Tok.textTok "<" :: tokenize fuel rest
            else if c == '!' || c == '?' then
              let after := rest.dropWhile (fun x => x != '>')
              match after with
              | '>' :: r2 => tokenize fuel r2
              | _ => Tok.textTok "<" :: tokenize fuel rest
            else
              Tok.textTok "<" :: tokenize fuel rest
    | _ =>
        let t := cs.takeWhile (fun x => x != '<')
        Tok.textTok (String.mk t) :: tokenize fuel (cs.drop t.length)

/-- An open element on the tree builder stack. -/
structure Frame where
  tag : String
  attrs : List (String × String)
  children : List Node

/-- Close a frame into an element node. -/
def closeFrame (fr : Frame) : Node := Node.elem fr.tag fr.attrs fr.children

/-- Append a completed node to the innermost open element, or to the
top-level output when no element is open. -/
def pushNode (stack : List Frame) (out : List Node) (n : Node) :
    List Frame × List Node :=
  match stack with
  | [] => ([], out ++ [n])
  | fr :: rest => ({ fr with children := fr.children ++ [n] } :: rest, out)

/-- Close the innermost open element. -/
def popFrame (stack : List Frame) (out : List Node) : List Frame × List Node :=
  match stack with
  | [] => ([], out)
  | fr :: rest => pushNode rest out (closeFrame fr)

/-- Close open elements up to and including the innermost one with the
given tag (the bs4 behavior for an end tag: intervening unclosed
elements are closed too). -/
def popToTag (fuel : Nat) (t : String) (stack : List Frame) (out : List Node) :
    List Frame × List Node :=
  match fuel with
  | 0 => (stack, out)
  | fuel + 1 =>
    match stack with
    | [] => ([], out)
    | fr :: _ =>
        let r := popFrame stack out
        if fr.tag == t then r else popToTag fuel t r.1 r.2

/-- Close all open elements (end of input). -/
def popAll (fuel : Nat) (stack : List Frame) (out : List Node) : List Node :=
  match fuel, stack with
  | _, [] => out
  | 0, _ => out
  | fuel + 1, fr :: rest =>
      let r := pushNode rest out (closeFrame fr)
      popAll fuel r.1 r.2

/-- The tags bs4's html.parser builder treats as empty elements. -/
def VOID_TAGS : List String :=
  ["area", "base", "br", "col", "embed", "hr", "img", "input", "keygen",
   "link", "menuitem", "meta", "param", "source", "track", "wbr"]

/-- Build the node forest from the token stream: start tags open frames
(void and self-closed ones become leaves at once), end tags close to the
matching open frame and are ignored when none matches, text becomes text
nodes, and end of input closes everything still open. -/
def buildTokens : List Tok → List Frame → List Node → List Node
  | [], stack, out => popAll stack.length stack out
  | Tok.textTok s :: rest, stack, out =>
      let r := pushNode stack out (Node.text s)
      buildTokens rest r.1 r.2
  | Tok.startTag t a sc :: rest, stack, out =>
      if VOID_TAGS.contains t || sc then
        let r := pushNode stack out (Node.elem t a [])
        buildTokens rest r.1 r.2
      else
        buildTokens rest ({ tag := t, attrs := a, children := [] } :: stack) out
  | Tok.endTag t :: rest, stack, out =>
      if stack.any (fun fr => fr.tag == t) then
        let r := popToTag stack.length t stack out
        buildTokens rest r.1 r.2
      else
        buildTokens rest stack out

/-- Model of BeautifulSoup(html, html.parser): a permissive, total
best-effort parse of the markup into a node forest. -/
def parseHTML (html : String) : List Node :=
  buildTokens (tokenize (html.data.length + 1) html.data) [] []

/-- The base element injected by sandbox_proxy (app.py line 178). -/
def baseTag (url : String) : Node := Node.elem "base" [("href", url)] []

mutual

/-- Insert the given node as the first child of the first head element
in pre-order, reporting whether one was found. -/
def insertBaseNode (b : Node) : Node → Node × Bool
  | .text s => (.text s, false)
  | .elem t a c =>
      if t == "head" then (.elem t a (b :: c), true)
      else
        let r := insertBaseForest b c
        (.elem t a r.1, r.2)

/-- Insert into the first head element of a forest in pre-order. -/
def insertBaseForest (b : Node) : List Node → List Node × Bool
  | [] => ([], false)
  | n :: ns =>
      let r := insertBaseNode b n
      if r.2 then (r.1 :: ns, true)
      else
        let rs := insertBaseForest b ns
        (r.1 :: rs.1, rs.2)

end

/-- The meta elements sandbox_proxy removes (app.py lines 182-184):
http-equiv equal, lowercased, to content-security-policy. -/
def isCSPMeta (n : Node) : Bool :=
  n.tag == "meta" && lowerStr (getAttrD n "http-equiv" "") == "content-security-policy"

mutual

/-- Remove every CSP meta element from a node's descendants. -/
def removeCSPNode : Node → Node
  | .text s => .text s
  | .elem t a c => .elem t a (removeCSPForest c)

/-- Remove every CSP meta element from a forest. -/
def removeCSPForest : List Node → List Node
  | [] => []
  | n :: ns =>
      if isCSPMeta n then removeCSPForest ns
      else removeCSPNode n :: removeCSPForest ns

end

/-- The tree transform of sandbox_proxy (app.py lines 172-186): ensure a
head exists (creating one at the front when absent), insert the base
element as its first child, then remove every CSP meta element. -/
def sanitizeDoc (url : String) (doc : List Node) : List Node :=
  let b := baseTag url
  let r := insertBaseForest b doc
  let doc := if r.2 then r.1 else Node.elem "head" [] [b] :: doc
  removeCSPForest doc

/-- Entity escape of one text character, as the serializer applies it. -/
def escChar (c : Char) : List Char :=
  if c == '&' then "&amp;".data
  else if c == '<' then "&lt;".data
  else if c == '>' then "&gt;".data
  else [c]

/-- Entity escape of one attribute-value character. -/
def escAttrChar (c : Char) : List Char :=
  if c == '&' then "&amp;".data
  else if c == '<' then "&lt;".data
  else if c == '>' then "&gt;".data
  else if c == '"' then "&quot;".data
  else [c]

/-- Serialize an attribute list as bs4 does: space, name, equals, the
double-quoted escaped value. -/
def serializeAttrs (a : List (String × String)) : String :=
  String.join (a.map (fun p =>
    " " ++ p.1 ++ "=\"" ++ String.mk (p.2.data.flatMap escAttrChar) ++ "\""))

mutual

/-- Serialize one node as str(soup) does: escaped text, void elements
self-closed, other elements with their serialized children. -/
def serializeNode : Node → String
  | .text s => String.mk (s.data.flatMap escChar)
  | .elem t a c =>
      if VOID_TAGS.contains t then "<" ++ t ++ serializeAttrs a ++ "/>"
      else "<" ++ t ++ serializeAttrs a ++ ">" ++ serializeForest c ++ "</" ++ t ++ ">"

/-- Serialize a forest. -/
def serializeForest : List Node → String
  | [] => ""
  | n :: ns => serializeNode n ++ serializeForest ns

end

/-- The whole sanitizing rewrite of sandbox_proxy (app.py lines 172-186):
parse permissively, inject the base element, strip CSP metas, and return
the serialized document. -/
def sanitize (page_url html : String) : String :=
  serializeForest (sanitizeDoc page_url (parseHTML html))

theorem applyRules_fst (rs : List (Bool × String × Nat)) (st : Nat × List String) :
    (applyRules rs st).1 = st.1 + sumTriggered rs := by
  induction rs generalizing st with
  | nil => simp [applyRules, sumTriggered]
  | cons r rs ih =>
      cases hr : r.1 <;>
        simp [applyRules, sumTriggered, add, hr, ih, List.filter_cons, Nat.add_assoc]

theorem applyRules_snd (rs : List (Bool × String × Nat)) (st : Nat × List String) :
    (applyRules rs st).2 = st.2 ++ triggeredFindings rs := by
  induction rs generalizing st with
  | nil => simp [applyRules, triggeredFindings]
  | cons r rs ih =>
      cases hr : r.1 <;>
        simp [applyRules, triggeredFindings, add, hr, ih, List.filter_cons]

theorem score_features_fst (f : Features) :
    (score_features f).1 = min (sumTriggered (ruleList f)) 100 := by
  simp [score_features, applyRules_fst]

theorem score_features_issues (f : Features) :
    (score_features f).2.2 = triggeredFindings (ruleList f) := by
  simp [score_features, applyRules_snd]

theorem score_features_level (f : Features) :
    (score_features f).2.1 =
      if 70 ≤ (score_features f).1 then "High"
      else if 40 ≤ (score_features f).1 then "Medium" else "Low" := by
  simp [score_features]

/-- C1.  For every feature vector v, score(v) is the sum of the triggered
weights clamped at 100 (hence lies in [0,100]; scores are Nat, so the
lower bound is implicit in the type), the level is one of Low, Medium,
High, and level = High iff score >= 70, Medium iff 40 <= score < 70, and
Low otherwise (score < 40). -/
theorem score_range_and_levels (f : Features) :
    (score_features f).1 = min (sumTriggered (ruleList f)) 100 ∧
    (score_features f).1 ≤ 100 ∧
    ((score_features f).2.1 = "Low" ∨ (score_features f).2.1 = "Medium" ∨
      (score_features f).2.1 = "High") ∧
    ((score_features f).2.1 = "High" ↔ 70 ≤ (score_features f).1) ∧
    ((score_features f).2.1 = "Medium" ↔
      40 ≤ (score_features f).1 ∧ (score_features f).1 < 70) ∧
    ((score_features f).2.1 = "Low" ↔ (score_features f).1 < 40) := by
  have hs : (score_features f).1 ≤ 100 := by
    rw [score_features_fst]; exact Nat.min_le_right _ _
  have hl := score_features_level f
  refine ⟨score_features_fst f, hs, ?_, ?_, ?_, ?_⟩ <;>
    rw [hl] <;> split_ifs <;> simp_all <;> omega

/-- C2.  For every feature vector, the issues list returned by
score_features is exactly the list of findings of the triggered rules,
filtered out of the fixed rule table ruleList in its declaration order
(mixedContent, metaRefresh, inlineHandlers>20, suspiciousInlineJS>0,
dataURIScripts>0, shortenerLinks>3, ipLinks>0, suspiciousTLDs>0,
execDownloads nonempty, formsToHTTP>0, hiddenIframes>0,
thirdPartyScripts>10, onBeforeUnload, fingerprintingAPIs>0,
base64InLinks>0); in particular it is always a sublist of the full
findings list in that order. -/
theorem issues_are_triggered_in_order (f : Features) :
    (score_features f).2.2 = triggeredFindings (ruleList f) ∧
    List.Sublist (score_features f).2.2
      ((ruleList f).map (fun r => finding r.2.1 r.2.2)) := by
  refine ⟨score_features_issues f, ?_⟩
  rw [score_features_issues, triggeredFindings]
  exact List.Sublist.map _ (List.filter_sublist _)

theorem ruleList_eq_zip (f : Features) :
    ruleList f = (trigVec f).zip ruleData := rfl

theorem ruleList_congr {f g : Features} (h : trigVec f = trigVec g) :
    ruleList f = ruleList g := by
  rw [ruleList_eq_zip, ruleList_eq_zip, h]

theorem sumTriggered_cons (r : Bool × String × Nat) (rs : List (Bool × String × Nat)) :
    sumTriggered (r :: rs) = (if r.1 then r.2.2 else 0) + sumTriggered rs := by
  cases hr : r.1 <;> simp [sumTriggered, List.filter_cons, hr]

theorem triggeredFindings_sublist (rs : List (Bool × String × Nat)) :
    List.Sublist (triggeredFindings rs) (rs.map (fun r => finding r.2.1 r.2.2)) :=
  List.Sublist.map _ (List.filter_sublist _)

theorem allFindings_nodup (f : Features) :
    ((ruleList f).map (fun r => finding r.2.1 r.2.2)).Nodup := by
  simp only [ruleList, List.map_cons, List.map_nil]
  decide

/-- C3.  Each heuristic rule contributes its weight and its finding at
most once per scan, independent of the magnitude of the triggering
counts: (a) the scorer output depends on the feature vector only through
the boolean trigger vector, (b) no finding ever appears twice in the
issues list, and (c) the vector with inlineHandlers = 25 and everything
else zero yields exactly score 10 and the single finding
"Many inline event handlers (+10)". -/
theorem rules_fire_at_most_once :
    (∀ f g : Features, trigVec f = trigVec g → score_features f = score_features g) ∧
    (∀ f : Features, ((score_features f).2.2).Nodup) ∧
    score_features { emptyFeatures with inlineHandlers := 25 } =
      (10, "Low", ["Many inline event handlers (+10)"]) := by
  refine ⟨?_, ?_, by decide⟩
  · intro f g h
    have hr := ruleList_congr h
    simp only [score_features, hr]
  · intro f
    have hsub : List.Sublist ((score_features f).2.2)
        ((ruleList f).map (fun r => finding r.2.1 r.2.2)) := by
      rw [score_features_issues]; exact triggeredFindings_sublist _
    exact (allFindings_nodup f).sublist hsub

/-- Witness for C3: two concrete vectors with inlineHandlers 25 and 21
(both past the threshold, all else zero) have equal trigger vectors,
hence identical scorer output. -/
theorem rules_fire_at_most_once_witness :
    score_features { emptyFeatures with inlineHandlers := 25 } =
      score_features { emptyFeatures with inlineHandlers := 21 } :=
  rules_fire_at_most_once.1
    { emptyFeatures with inlineHandlers := 25 }
    { emptyFeatures with inlineHandlers := 21 } (by decide)

theorem sumTriggered_zip_set (bs : List Bool) (ps : List (String × Nat)) (i : Nat)
    (hb : bs.getD i true = false) :
    sumTriggered ((bs.set i true).zip ps) =
      sumTriggered (bs.zip ps) +
        (if i < ps.length then (ps.getD i ("", 0)).2 else 0) := by
  induction bs generalizing i ps with
  | nil => simp [List.getD] at hb
  | cons b bs ih =>
      cases i with
      | zero =>
          simp only [List.getD_cons_zero] at hb
          subst hb
          cases ps with
          | nil => simp [sumTriggered]
          | cons p ps =>
              simp only [List.set_cons_zero, List.zip_cons_cons, sumTriggered_cons]
              simp
              omega
      | succ i =>
          simp only [List.getD_cons_succ] at hb
          cases ps with
          | nil => simp [sumTriggered]
          | cons p ps =>
              simp only [List.set_cons_succ, List.zip_cons_cons, sumTriggered_cons,
                ih _ _ hb, List.length_cons, Nat.succ_lt_succ_iff, List.getD_cons_succ]
              omega

theorem ruleData_pos : ∀ i, i < 15 → 0 < (ruleData.getD i ("", 0)).2 := by decide

theorem trigVec_length (f : Features) : (trigVec f).length = 15 := rfl

/-- C4.  Monotonicity of the score in rule triggering: if vector g's
trigger vector is vector f's with one previously-false entry switched to
true (one newly triggered rule, all other trigger statuses unchanged),
then score(f) <= score(g), and the two scores are equal only where the
clamp at 100 applies (the equal score is exactly 100). -/
theorem score_monotone_in_triggers (f g : Features) (i : Nat)
    (hf : (trigVec f).getD i true = false)
    (hg : trigVec g = (trigVec f).set i true) :
    (score_features f).1 ≤ (score_features g).1 ∧
    ((score_features f).1 = (score_features g).1 → (score_features g).1 = 100) := by
  have hi : i < (trigVec f).length := by
    by_contra hlt
    rw [List.getD_eq_default _ _ (Nat.le_of_not_lt hlt)] at hf
    simp at hf
  have hi15 : i < 15 := trigVec_length f ▸ hi
  have hsum : sumTriggered (ruleList g) =
      sumTriggered (ruleList f) + (ruleData.getD i ("", 0)).2 := by
    rw [ruleList_eq_zip g, ruleList_eq_zip f, hg, sumTriggered_zip_set _ _ _ hf,
      if_pos (by simpa using hi15)]
  have hw : 0 < (ruleData.getD i ("", 0)).2 := ruleData_pos i hi15
  rw [score_features_fst, score_features_fst, hsum]
  omega

/-- Witness for C4: flipping the ipLinks rule (index 6) from untriggered
to triggered on the all-zero vector does not decrease the score. -/
theorem score_monotone_in_triggers_witness :
    (score_features emptyFeatures).1 ≤
      (score_features { emptyFeatures with ipLinks := 1 }).1 ∧
    ((score_features emptyFeatures).1 =
        (score_features { emptyFeatures with ipLinks := 1 }).1 →
      (score_features { emptyFeatures with ipLinks := 1 }).1 = 100) :=
  score_monotone_in_triggers emptyFeatures
    { emptyFeatures with ipLinks := 1 } 6 (by decide) (by decide)

theorem sumTriggered_eq_zero_iff (rs : List (Bool × String × Nat))
    (hpos : ∀ r ∈ rs, 0 < r.2.2) :
    sumTriggered rs = 0 ↔ rs.filter (fun r => r.1) = [] := by
  induction rs with
  | nil => simp [sumTriggered]
  | cons r rs ih =>
      have hr : 0 < r.2.2 := hpos r (List.mem_cons_self r rs)
      have ih' := ih (fun x hx => hpos x (List.mem_cons_of_mem r hx))
      cases hb : r.1 <;>
        simp only [sumTriggered_cons, List.filter_cons, hb, if_true, if_false,
          ite_true, ite_false] <;>
        simp [ih'] <;> omega

theorem ruleList_weights_pos (f : Features) : ∀ r ∈ ruleList f, 0 < r.2.2 := by
  intro r hr
  simp only [ruleList, List.mem_cons, List.not_mem_nil, or_false] at hr
  rcases hr with rfl | rfl | rfl | rfl | rfl | rfl | rfl | rfl | rfl | rfl |
    rfl | rfl | rfl | rfl | rfl <;> (norm_num [WEIGHTS] <;> decide)

/-- C8.  For every feature vector the score is 0 exactly when the issues
list is empty: every weight in the static weight table is strictly
positive, so a triggered rule both raises the score above 0 and appends
its finding. -/
theorem score_zero_iff_no_issues (f : Features) :
    (score_features f).1 = 0 ↔ (score_features f).2.2 = [] := by
  rw [score_features_fst, score_features_issues]
  have h := sumTriggered_eq_zero_iff (ruleList f) (ruleList_weights_pos f)
  constructor
  · intro h0
    have : sumTriggered (ruleList f) = 0 := by omega
    simp [triggeredFindings, h.mp this]
  · intro h0
    have : (ruleList f).filter (fun r => r.1) = [] := by
      simpa [triggeredFindings] using h0
    have := h.mpr this
    omega

theorem anchorStep_skip (u : String) (f : Features) (a : Node)
    (h : urljoin u (getAttrD a "href" "") = "") : anchorStep u f a = f := by
  simp [anchorStep, normalize_url, h]

theorem anchorStep_pass (u : String) (f : Features) (a : Node) :
    (anchorStep u f a).mixedContent = f.mixedContent ∧
    (anchorStep u f a).metaRefresh = f.metaRefresh ∧
    (anchorStep u f a).inlineHandlers = f.inlineHandlers := by
  simp only [anchorStep, normalize_url]
  split_ifs <;> simp

theorem foldl_anchorStep_pass (u : String) (as : List Node) (f : Features) :
    (as.foldl (anchorStep u) f).mixedContent = f.mixedContent ∧
    (as.foldl (anchorStep u) f).metaRefresh = f.metaRefresh ∧
    (as.foldl (anchorStep u) f).inlineHandlers = f.inlineHandlers := by
  induction as generalizing f with
  | nil => simp
  | cons a as ih =>
      have hp := anchorStep_pass u f a
      have hi := ih (anchorStep u f a)
      simp only [List.foldl_cons]
      exact ⟨hi.1.trans hp.1, hi.2.1.trans hp.2.1, hi.2.2.trans hp.2.2⟩

theorem anchorStep_shortenerLinks (u : String) (f : Features) (a : Node)
    (h : urljoin u (getAttrD a "href" "") ≠ "") :
    (anchorStep u f a).shortenerLinks =
      f.shortenerLinks +
        (if isShortenerHref (urljoin u (getAttrD a "href" "")) then 1 else 0) := by
  simp only [anchorStep, normalize_url, isShortenerHref]
  split_ifs <;> simp_all

theorem anchorStep_ipLinks (u : String) (f : Features) (a : Node)
    (h : urljoin u (getAttrD a "href" "") ≠ "") :
    (anchorStep u f a).ipLinks =
      f.ipLinks + (if isIpHref (urljoin u (getAttrD a "href" "")) then 1 else 0) := by
  simp only [anchorStep, normalize_url, isIpHref]
  split_ifs <;> simp_all

theorem anchorStep_suspiciousTLDs (u : String) (f : Features) (a : Node)
    (h : urljoin u (getAttrD a "href" "") ≠ "") :
    (anchorStep u f a).suspiciousTLDs =
      f.suspiciousTLDs +
        (if isSuspTldHref (urljoin u (getAttrD a "href" "")) then 1 else 0) := by
  simp only [anchorStep, normalize_url, isSuspTldHref]
  split_ifs <;> simp_all

theorem anchorStep_base64InLinks (u : String) (f : Features) (a : Node)
    (h : urljoin u (getAttrD a "href" "") ≠ "") :
    (anchorStep u f a).base64InLinks =
      f.base64InLinks +
        (if isB64Href (urljoin u (getAttrD a "href" "")) then 1 else 0) := by
  simp only [anchorStep, normalize_url, isB64Href]
  split_ifs <;> simp_all

theorem anchorStep_execDownloads (u : String) (f : Features) (a : Node)
    (h : urljoin u (getAttrD a "href" "") ≠ "") :
    (anchorStep u f a).execDownloads =
      f.execDownloads ++
        (if isExecAnchor (anchorRes u a) then [urljoin u (getAttrD a "href" "")] else []) := by
  simp only [anchorStep, normalize_url, isExecAnchor, anchorRes]
  split_ifs <;> simp_all

theorem foldl_anchorStep_links (u : String) (as : List Node) (f : Features) :
    (as.foldl (anchorStep u) f).shortenerLinks =
      f.shortenerLinks + (resolvedList u as).countP (fun p => isShortenerHref p.2) ∧
    (as.foldl (anchorStep u) f).ipLinks =
      f.ipLinks + (resolvedList u as).countP (fun p => isIpHref p.2) ∧
    (as.foldl (anchorStep u) f).suspiciousTLDs =
      f.suspiciousTLDs + (resolvedList u as).countP (fun p => isSuspTldHref p.2) ∧
    (as.foldl (anchorStep u) f).base64InLinks =
      f.base64InLinks + (resolvedList u as).countP (fun p => isB64Href p.2) ∧
    (as.foldl (anchorStep u) f).execDownloads =
      f.execDownloads ++ ((resolvedList u as).filter isExecAnchor).map (fun p => p.2) := by
  induction as generalizing f with
  | nil => simp [resolvedList]
  | cons a as ih =>
      have hi := ih (anchorStep u f a)
      simp only [List.foldl_cons]
      by_cases h : urljoin u (getAttrD a "href" "") = ""
      · have hs := anchorStep_skip u f a h
        have hres : resolvedList u (a :: as) = resolvedList u as := by
          simp [resolvedList, List.filter_cons, anchorRes, h]
        rw [hs, hres]
        exact ih f
      · have hres : resolvedList u (a :: as) = anchorRes u a :: resolvedList u as := by
          simp [resolvedList, List.filter_cons, anchorRes, h]
        rw [hres]
        refine ⟨?_, ?_, ?_, ?_, ?_⟩
        · rw [hi.1, anchorStep_shortenerLinks u f a h,
            List.countP_cons]
          simp [anchorRes]
          omega
        · rw [hi.2.1, anchorStep_ipLinks u f a h, List.countP_cons]
          simp [anchorRes]
          omega
        · rw [hi.2.2.1, anchorStep_suspiciousTLDs u f a h, List.countP_cons]
          simp [anchorRes]
          omega
        · rw [hi.2.2.2.1, anchorStep_base64InLinks u f a h, List.countP_cons]
          simp [anchorRes]
          omega
        · rw [hi.2.2.2.2, anchorStep_execDownloads u f a h, List.filter_cons]
          simp only [anchorRes]
          by_cases he : isExecAnchor (hasAttr a "download", urljoin u (getAttrD a "href" "")) <;>
            simp [he, List.append_assoc]

theorem collect_mixedContent (u h : String) (doc : List Node) :
    (collect_features u h doc).mixedContent =
      (startsWithStr "https:" (lowerStr u) &&
        ((forestElems doc).filter
          (fun el => hasAttr el "src" || hasAttr el "href")).any mixedTrigger) := by
  simp only [collect_features]
  rw [(foldl_anchorStep_pass u _ _).1]

theorem collect_metaRefresh (u h : String) (doc : List Node) :
    (collect_features u h doc).metaRefresh =
      (forestElems doc).any (fun el =>
        el.tag == "meta" && (getAttr el "http-equiv" == some "refresh" ||
          getAttr el "http-equiv" == some "Refresh")) := by
  simp only [collect_features]
  rw [(foldl_anchorStep_pass u _ _).2.1]

theorem collect_inlineHandlers (u h : String) (doc : List Node) :
    (collect_features u h doc).inlineHandlers =
      ((forestElems doc).map
        (fun el => (INLINE_EVENTS.filter (fun a => hasAttr el a)).length)).sum := by
  simp only [collect_features]
  rw [(foldl_anchorStep_pass u _ _).2.2]

theorem collect_links (u h : String) (doc : List Node) :
    (collect_features u h doc).shortenerLinks =
      (resolvedAnchors u doc).countP (fun p => isShortenerHref p.2) ∧
    (collect_features u h doc).ipLinks =
      (resolvedAnchors u doc).countP (fun p => isIpHref p.2) ∧
    (collect_features u h doc).suspiciousTLDs =
      (resolvedAnchors u doc).countP (fun p => isSuspTldHref p.2) ∧
    (collect_features u h doc).base64InLinks =
      (resolvedAnchors u doc).countP (fun p => isB64Href p.2) ∧
    (collect_features u h doc).execDownloads =
      ((resolvedAnchors u doc).filter isExecAnchor).map (fun p => p.2) := by
  simp only [collect_features, resolvedAnchors]
  refine ⟨?_, ?_, ?_, ?_, ?_⟩
  · rw [(foldl_anchorStep_links u _ _).1]; simp [emptyFeatures]
  · rw [(foldl_anchorStep_links u _ _).2.1]; simp [emptyFeatures]
  · rw [(foldl_anchorStep_links u _ _).2.2.1]; simp [emptyFeatures]
  · rw [(foldl_anchorStep_links u _ _).2.2.2.1]; simp [emptyFeatures]
  · rw [(foldl_anchorStep_links u _ _).2.2.2.2]; simp [emptyFeatures]

/-- C7 counterexample: the selector of app.py line 66 matches the
http-equiv value only in the two exact spellings refresh and Refresh, so
the casing REFRESH, although equal to refresh under case-insensitive
comparison, is not detected. -/
theorem metaRefresh_misses_uppercase :
    lowerStr "REFRESH" = "refresh" ∧
    (collect_features "https://example.com/" ""
      [Node.elem "meta" [("http-equiv", "REFRESH")] []]).metaRefresh = false := by
  constructor
  · decide
  · rfl

/-- C7 (amended).  The metaRefresh feature is true exactly when the
document contains a meta element whose http-equiv attribute value is the
exact string refresh or the exact string Refresh (the two spellings
listed in the source selector); other casings are not detected. -/
theorem metaRefresh_iff_exact_spellings (u h : String) (doc : List Node) :
    (collect_features u h doc).metaRefresh = true ↔
      ∃ el ∈ forestElems doc, el.tag = "meta" ∧
        (getAttr el "http-equiv" = some "refresh" ∨
          getAttr el "http-equiv" = some "Refresh") := by
  rw [collect_metaRefresh]
  simp [List.any_eq_true]

/-- C9.  The five link checks are applied independently to each resolved
anchor href of the scan: each of shortenerLinks, ipLinks, suspiciousTLDs
and base64InLinks counts the resolved anchors satisfying its own
predicate, and execDownloads lists the resolved hrefs that are
download-attributed or end in a download extension — so one anchor can
feed several features at once, as the concrete anchor to
http://evil.zip shows (it is counted in suspiciousTLDs and appended to
execDownloads in the same scan). -/
theorem link_checks_independent (u h : String) (doc : List Node) :
    (collect_features u h doc).shortenerLinks =
      (resolvedAnchors u doc).countP (fun p => isShortenerHref p.2) ∧
    (collect_features u h doc).ipLinks =
      (resolvedAnchors u doc).countP (fun p => isIpHref p.2) ∧
    (collect_features u h doc).suspiciousTLDs =
      (resolvedAnchors u doc).countP (fun p => isSuspTldHref p.2) ∧
    (collect_features u h doc).base64InLinks =
      (resolvedAnchors u doc).countP (fun p => isB64Href p.2) ∧
    (collect_features u h doc).execDownloads =
      ((resolvedAnchors u doc).filter isExecAnchor).map (fun p => p.2) ∧
    (collect_features "https://safe.example/" ""
      [Node.elem "a" [("href", "http://evil.zip")] []]).suspiciousTLDs = 1 ∧
    (collect_features "https://safe.example/" ""
      [Node.elem "a" [("href", "http://evil.zip")] []]).execDownloads = ["http://evil.zip"] := by
  have hl := collect_links u h doc
  exact ⟨hl.1, hl.2.1, hl.2.2.1, hl.2.2.2.1, hl.2.2.2.2, by rfl, by rfl⟩

/-- C10.  In the mixed-content check, an element with a truthy (non-empty)
src attribute is judged by its src value alone (the or-expression of
app.py line 61 never reaches the href), and the concrete HTTPS page whose
only element carries src https-colon and href http-colon is not flagged
as mixed content. -/
theorem mixed_content_src_wins :
    (∀ (el : Node) (s : String), getAttr el "src" = some s → s ≠ "" →
      mixedTrigger el = startsWithStr "http://" (lowerStr (trimStr s))) ∧
    (collect_features "https://shop.example/" ""
      [Node.elem "img"
        [("src", "https://cdn.example/pic.png"), ("href", "http://insecure.example/")]
        []]).mixedContent = false := by
  constructor
  · intro el s hs hne
    simp [mixedTrigger, mixedVal, pyOr, hs, hne]
  · rfl

/-- Witness for C10: the per-element judgement evaluated on a concrete
element carrying only a src attribute. -/
theorem mixed_content_src_wins_witness :
    mixedTrigger (Node.elem "img" [("src", "https://ok.example/")] []) =
      startsWithStr "http://" (lowerStr (trimStr "https://ok.example/")) :=
  mixed_content_src_wins.1 (Node.elem "img" [("src", "https://ok.example/")] [])
    "https://ok.example/" (by rfl) (by decide)

/-- C5 counterexample: the recognized inline-handler attribute set
INLINE_EVENTS (app.py lines 35-36) has exactly ten members, not the
fourteen the claim states. -/
theorem inline_events_not_fourteen :
    INLINE_EVENTS.length = 10 ∧ ¬ INLINE_EVENTS.length = 14 := by decide

/-- C5 (amended).  The inlineHandlers feature counts one increment per
(element, recognized handler attribute) pair across all elements of the
document — an element carrying several recognized handler attributes
contributes several increments, as the concrete element carrying onclick,
onload and onerror (contributing three) shows — and the recognized set
INLINE_EVENTS has exactly ten members. -/
theorem inline_handlers_per_attribute (u h : String) (doc : List Node) :
    (collect_features u h doc).inlineHandlers =
      ((forestElems doc).flatMap
        (fun el => INLINE_EVENTS.filter (fun n => hasAttr el n))).length ∧
    INLINE_EVENTS.length = 10 ∧
    (collect_features "http://x.example/" ""
      [Node.elem "div" [("onclick", "a"), ("onload", "b"), ("onerror", "c")] []]).inlineHandlers
      = 3 := by
  refine ⟨?_, by decide, by rfl⟩
  rw [collect_inlineHandlers]
  induction forestElems doc with
  | nil => simp
  | cons e es ih => simp_all

/-- C6 counterexample: on the malformed (truncated) input the sanitizer
does not return the original text — sandbox_proxy has no unparsable
fallback path at all: the permissive parser always yields a document,
and the transform always injects a base element before serializing. -/
theorem sanitize_modifies_truncated_input :
    sanitize "http://example.com/" "<p>hello" ≠ "<p>hello" := by decide

/-- C6 (amended).  Malformed or truncated HTML never makes sanitize fail,
but it is not returned unchanged either: the permissive parser still
produces a document tree, the transform injects the base element (and
strips CSP metas), and the serialized modified document is returned — the
truncated input yields a document with a created head, the injected base,
and the auto-closed element; even an empty parse is rewritten to a head
containing the base element rather than passed through. -/
theorem sanitize_rewrites_malformed :
    sanitize "http://example.com/" "<p>hello" =
      "<head><base href=\"http://example.com/\"/></head><p>hello</p>" ∧
    (∀ url : String, sanitizeDoc url [] =
      [Node.elem "head" [] [Node.elem "base" [("href", url)] []]]) := by
  exact ⟨by rfl, fun url => by rfl⟩

end SiteGuard
